import Mathlib

/-!
Verification of the Podclaw link-resolution and transcript-acquisition
pipeline.  The JavaScript source (`api/transcript.js` in its three revisions,
and `api/resolve.js`) is shallowly embedded: network calls become explicit
parameters, JS strings become Lean `String`/`List Char`, and the JS number
`NaN` is modelled as `none : Option Int`.
-/

namespace Podclaw

/-- JS whitespace for `String.prototype.trim` (the ASCII part used here). -/
def isWsChar (c : Char) : Bool :=
  c = ' ' || c = '\t' || c = '\n' || c = '\r' || c = '\x0c' || c = '\x0b'

/-- `s.trim()` on a character list. -/
def trimChars (cs : List Char) : List Char :=
  ((cs.dropWhile isWsChar).reverse.dropWhile isWsChar).reverse

/-- `s.trim()` on strings. -/
def jsTrim (s : String) : String :=
  ⟨trimChars s.data⟩

/-- ASCII lower-casing of one character, as `toLowerCase` acts on the
ASCII inputs exercised by this code base. -/
def lowerChar (c : Char) : Char :=
  if 'A' ≤ c ∧ c ≤ 'Z' then Char.ofNat (c.toNat + 32) else c

/-- `s.toLowerCase()` (ASCII fragment). -/
def lowerStr (s : String) : String :=
  ⟨s.data.map lowerChar⟩

/-- Does `needle` occur as a contiguous sublist of `haystack`? -/
def occursWithin (needle : List Char) : List Char → Bool
  | [] => needle.isPrefixOf []
  | c :: rest => needle.isPrefixOf (c :: rest) || occursWithin needle rest

/-- `haystack.includes(needle)` — substring containment. -/
def jsIncludes (haystack needle : String) : Bool :=
  occursWithin needle.data haystack.data

/-- `s.startsWith(pre)`. -/
def jsStartsWith (s pre : String) : Bool :=
  pre.data.isPrefixOf s.data

/-- `s.substring(0, n)`. -/
def strTake (s : String) (n : Nat) : String :=
  ⟨s.data.take n⟩

/-- JS `a || b` for strings (the empty string is falsy). -/
def jsOrStr (a b : String) : String :=
  if a = "" then b else a

/-- JS `a || b` where `a` is an optional object (objects are truthy,
`undefined` is falsy): `Option.orElse` without laziness concerns. -/
def jsOrOpt {α : Type} (a b : Option α) : Option α :=
  match a with
  | some x => some x
  | none => b

/-- `x || 0` for a JS number that may be `NaN` (`none`); `NaN` and `0` are
falsy and give `0`, every other number is returned unchanged (including
negative numbers, which are truthy in JS). -/
def jsOrZero (d : Option Int) : Int :=
  match d with
  | none => 0
  | some v => v

/-- `String(n).padStart(2, '0')` for a natural number. -/
def pad2 (n : Nat) : String :=
  if n < 10 then "0" ++ toString n else toString n

/-- Timestamp construction of the caption-event paths
(`api/transcript.js` revisions 1 and 2, `parseCaptionJson3` and the inline
loop): `mins = Math.floor(startSec / 60); secs = startSec % 60;
timestamp = mins + ":" + pad(secs)`.  There is no hour component. -/
def captionTimestamp (startSec : Nat) : String :=
  toString (startSec / 60) ++ ":" ++ pad2 (startSec % 60)

/-- Timestamp construction of the speech-to-text path (`api/transcript.js`
revision 3, Whisper segment re-flow): hours split off when positive. -/
def sttTimestamp (totalSec : Nat) : String :=
  let h := totalSec / 3600
  let m := (totalSec % 3600) / 60
  let s := totalSec % 60
  if h > 0 then
    toString h ++ ":" ++ pad2 m ++ ":" ++ pad2 s
  else
    toString m ++ ":" ++ pad2 s

/-! ### Caption-event parsing (JSON3 payloads) -/

/-- One sub-segment of a JSON3 caption event; `utf8` models `s.utf8 || ''`
(an absent field behaves as the empty string). -/
structure CaptionSeg where
  utf8 : String
deriving DecidableEq, Repr

/-- One JSON3 caption event.  `tStartMs` is `none` when the field is absent
(`event.tStartMs || 0` supplies the default); `segs` is `none` when the
event has no `segs` array (`if (!event.segs) continue`). -/
structure CaptionEvent where
  tStartMs : Option Nat
  segs : Option (List CaptionSeg)
deriving DecidableEq, Repr

/-- `text.replace(/\n/g, ' ')`. -/
def replaceNewlines (s : String) : String :=
  ⟨s.data.map (fun c => if c = '\n' then ' ' else c)⟩

/-- `parseCaptionJson3` of `api/transcript.js` (revision 2); revision 1
inlines the same loop.  Events without `segs` are skipped; within an event
all `utf8` pieces are joined, newlines become spaces, the result is
trimmed, and empty texts are dropped; each surviving event yields one line
`"[timestamp] text"`, joined with `"\n"`. -/
def parseCaptionJson3 (events : List CaptionEvent) : String :=
  let lines := events.filterMap (fun event =>
    match event.segs with
    | none => none
    | some segs =>
      let startMs := match event.tStartMs with | some v => v | none => 0
      let startSec := startMs / 1000
      let timestamp := captionTimestamp startSec
      let text := jsTrim (replaceNewlines (String.join (segs.map (·.utf8))))
      if text ≠ "" then some ("[" ++ timestamp ++ "] " ++ text) else none)
  String.intercalate "\n" lines

/-- The length gate both caption-based handlers apply after assembling the
transcript (`if (transcript.length < 50) throw` in revision 1, and
`if (!transcript || transcript.length < 50) throw` in revision 2; an empty
string has length `0 < 50`, so the two conditions agree). -/
def captionTranscriptCheck (events : List CaptionEvent) : Except String String :=
  let transcript := parseCaptionJson3 events
  if transcript.length < 50 then .error "Transcript is empty or too short."
  else .ok transcript

/-! ### Caption track selection -/

/-- A caption track as exposed by the player response; `kind` is `none`
when absent (manually authored tracks carry no `kind`). -/
structure CaptionTrack where
  languageCode : String
  kind : Option String
deriving DecidableEq, Repr

/-- Track selection of revision 1 (youtubei.js client):
`find(lang === 'en' && kind !== 'asr') || find(lang.startsWith('en')) ||
tracks[0]`. -/
def selectTrack1 (tracks : List CaptionTrack) : Option CaptionTrack :=
  jsOrOpt (tracks.find? (fun t => t.languageCode = "en" ∧ t.kind ≠ some "asr"))
    (jsOrOpt (tracks.find? (fun t => jsStartsWith t.languageCode "en"))
      tracks.head?)

/-- Track selection of revision 2 (direct InnerTube player call):
`find(lang === 'en' && kind !== 'asr') || find(lang === 'en') ||
tracks[0]`. -/
def selectTrack3 (tracks : List CaptionTrack) : Option CaptionTrack :=
  jsOrOpt (tracks.find? (fun t => t.languageCode = "en" ∧ t.kind ≠ some "asr"))
    (jsOrOpt (tracks.find? (fun t => t.languageCode = "en"))
      tracks.head?)

/-! ### YouTube video-ID extraction -/

/-- A character of the class `[a-zA-Z0-9_-]`. -/
def isIdChar (c : Char) : Bool :=
  c.isAlpha || c.isDigit || c = '-' || c = '_'

/-- The parts of a parsed URL that `extractVideoId` consults. -/
structure JsUrl where
  hostname : String
  pathname : String
  queryParams : List (String × String)
deriving DecidableEq, Repr

/-- Split a character list at the first occurrence of `sep`, returning the
text before it and the text after it. -/
def splitAtSub (sep : List Char) : List Char → Option (List Char × List Char)
  | [] => if sep.isPrefixOf ([] : List Char) then some ([], []) else none
  | c :: rest =>
    if sep.isPrefixOf (c :: rest) then some ([], (c :: rest).drop sep.length)
    else match splitAtSub sep rest with
      | some (pre, post) => some (c :: pre, post)
      | none => none

/-- Split a character list on every occurrence of the character `sep`
(JS `String.prototype.split` with a one-character separator). -/
def splitOnChar (sep : Char) : List Char → List (List Char)
  | [] => [[]]
  | c :: rest =>
    if c = sep then [] :: splitOnChar sep rest
    else match splitOnChar sep rest with
      | [] => [[c]]
      | chunk :: chunks => (c :: chunk) :: chunks

/-- Modelled from the WHATWG `new URL(input)` constructor for the absolute
`scheme://host/path?query` shapes this code receives: parsing fails
(`throw`, here `none`) when the input has no `://`-style scheme; the
hostname is lower-cased and stripped of a port; the path defaults to `/`;
the query splits on `&` and `=`.  Userinfo, fragments-in-host and percent
decoding are not exercised by the embedded call sites and are left out. -/
def parseURL (s : String) : Option JsUrl :=
  match splitAtSub "://".data s.data with
  | none => none
  | some (scheme, rest) =>
    if scheme ≠ [] ∧ scheme.all (fun c => c.isAlpha || c.isDigit || c = '+' ||
        c = '-' || c = '.') ∧ (scheme.head?.map Char.isAlpha).getD false then
      let authority := rest.takeWhile (fun c => c ≠ '/' ∧ c ≠ '?' ∧ c ≠ '#')
      let afterAuth := rest.drop authority.length
      let host := (authority.takeWhile (· ≠ ':')).map lowerChar
      let pathChars := afterAuth.takeWhile (fun c => c ≠ '?' ∧ c ≠ '#')
      let afterPath := afterAuth.drop pathChars.length
      let queryChars :=
        match afterPath with
        | '?' :: qs => qs.takeWhile (· ≠ '#')
        | _ => []
      let params := (splitOnChar '&' queryChars).filterMap (fun kv =>
        if kv = [] then none
        else
          let k := kv.takeWhile (· ≠ '=')
          let v := (kv.drop k.length).drop 1
          some (String.mk k, String.mk v))
      some { hostname := ⟨host⟩,
             pathname := if pathChars = [] then "/" else ⟨pathChars⟩,
             queryParams := params }
    else none

/-- `url.searchParams.get(name)`. -/
def searchParamsGet (url : JsUrl) (name : String) : Option String :=
  (url.queryParams.find? (fun kv => kv.1 = name)).map (·.2)

/-- One attempt of the fallback regex
`/(?:v=|youtu\.be\/)([a-zA-Z0-9_-]{11})/` at the current position:
either alternative literal followed by exactly eleven id characters. -/
def regexIdAt (cs : List Char) : Option String :=
  let grab11 (xs : List Char) : Option String :=
    let ds := xs.take 11
    if ds.length = 11 ∧ ds.all isIdChar then some ⟨ds⟩ else none
  if "v=".data.isPrefixOf cs then grab11 (cs.drop 2)
  else if "youtu.be/".data.isPrefixOf cs then grab11 (cs.drop 9)
  else none

/-- Leftmost match of the fallback regex over the whole input. -/
def regexIdScan : List Char → Option String
  | [] => none
  | c :: rest =>
    match regexIdAt (c :: rest) with
    | some v => some v
    | none => regexIdScan rest

/-- `extractVideoId` of `api/transcript.js` (identical in revisions 1 and
2): empty input is rejected; a trimmed 11-character id token is returned
as-is; URL inputs dispatch on the hostname (`youtu.be` → first path
segment, `youtube.com` → the `v` query parameter, returned even when
absent, i.e. `null`); any other input falls through to the regex. -/
def extractVideoId (input : String) : Option String :=
  if input = "" then none
  else
    let trimmed := jsTrim input
    if trimmed.data.length = 11 ∧ trimmed.data.all isIdChar then some trimmed
    else
      match parseURL trimmed with
      | some url =>
        if jsIncludes url.hostname "youtu.be" then
          some ⟨(url.pathname.data.drop 1).takeWhile (· ≠ '/')⟩
        else if jsIncludes url.hostname "youtube.com" then
          searchParamsGet url "v"
        else regexIdScan trimmed.data
      | none => regexIdScan trimmed.data

/-! ### JS number conversions and `itunes:duration` parsing -/

/-- Digits of a character list read as a base-10 natural number. -/
def digitsToNat (ds : List Char) : Nat :=
  ds.foldl (fun acc c => acc * 10 + (c.toNat - '0'.toNat)) 0

/-- `Number(s)` on the integral inputs this code receives: whitespace is
trimmed, the empty string converts to `0`, an optionally signed digit
string converts to its value, and anything else is `NaN` (`none`).
Fractional and exponent syntax never reach this fragment and are not
modelled. -/
def jsNumber (s : List Char) : Option Int :=
  let t := trimChars s
  if t = [] then some 0
  else
    match t with
    | '-' :: ds => if ds ≠ [] ∧ ds.all Char.isDigit then some (-(digitsToNat ds : Int)) else none
    | '+' :: ds => if ds ≠ [] ∧ ds.all Char.isDigit then some (digitsToNat ds : Int) else none
    | ds => if ds.all Char.isDigit then some (digitsToNat ds : Int) else none

/-- `parseInt(s, 10)`: leading whitespace skipped, optional sign, then the
longest leading digit run; no digits means `NaN` (`none`). -/
def jsParseInt (s : List Char) : Option Int :=
  let t := s.dropWhile isWsChar
  let signed : Bool × List Char :=
    match t with
    | '-' :: rest => (true, rest)
    | '+' :: rest => (false, rest)
    | rest => (false, rest)
  let ds := signed.2.takeWhile Char.isDigit
  if ds = [] then none
  else if signed.1 then some (-(digitsToNat ds : Int)) else some (digitsToNat ds : Int)

/-- NaN-propagating multiplication and addition over `Option Int`. -/
def nanMul (a : Option Int) (b : Int) : Option Int := a.map (· * b)

/-- NaN-propagating addition. -/
def nanAdd (a b : Option Int) : Option Int :=
  match a, b with
  | some x, some y => some (x + y)
  | _, _ => none

/-- The duration parsing of `fetchRSSEpisodes` (`api/resolve.js`):
a colon-bearing string splits on `:` and maps through `Number`; three
parts combine as `H*3600 + M*60 + S`, two parts as `M*60 + S`, any other
count leaves the initial `0`; a colon-free string goes through
`parseInt(s, 10) || 0`.  `none` is the JS `NaN` that arises when a colon
part fails to convert. -/
def parseItunesDuration (durationStr : String) : Option Int :=
  if durationStr.data.contains ':' then
    let parts := (splitOnChar ':' durationStr.data).map jsNumber
    match parts with
    | [a, b, c] => nanAdd (nanAdd (nanMul a 3600) (nanMul b 60)) c
    | [a, b] => nanAdd (nanMul a 60) b
    | _ => some 0
  else
    match jsParseInt durationStr.data with
    | none => some 0
    | some v => some v

/-! ### Regex-free embedding of the XML extraction helpers

`extractTag` and `extractAttr` of `api/resolve.js` are regex lookups; the
functions below implement the same leftmost-match semantics directly:
case-insensitive literals for the `i` flag, a first-`>` cut for `[^>]*>`,
a shortest-content scan for the lazy `([\s\S]*?)` group, and a
longest-offset scan for the greedy `[^>]*` before an attribute. -/

/-- Match `pat` case-insensitively at the head of `xs`, returning the
remainder on success. -/
def caselessMatch : List Char → List Char → Option (List Char)
  | [], xs => some xs
  | _, [] => none
  | p :: ps, x :: xs =>
    if lowerChar p = lowerChar x then caselessMatch ps xs else none

/-- Does `\s*</close>` match at the head of `xs` (case-insensitively)? -/
def wsCloseAt (close : List Char) (xs : List Char) : Bool :=
  (caselessMatch ('<' :: '/' :: (close ++ ['>'])) (xs.dropWhile isWsChar)).isSome

/-- Does the tail pattern `(?:\]\]>)?\s*</close>` match at the head of
`xs`?  Both choices of the optional CDATA terminator are tried. -/
def closeTagAt (close : List Char) (xs : List Char) : Bool :=
  (match caselessMatch "]]>".data xs with
   | some rest => wsCloseAt close rest
   | none => false) || wsCloseAt close xs

/-- Shortest prefix of `xs` (the lazy `([\s\S]*?)` group) after which the
closing-tag tail pattern matches; `none` when no closing tag follows. -/
def findContentEnd (close : List Char) : List Char → Option (List Char)
  | [] => if closeTagAt close [] then some [] else none
  | c :: rest =>
    if closeTagAt close (c :: rest) then some []
    else (findContentEnd close rest).map (c :: ·)

/-- Attempt the whole `extractTag` pattern
`<tag[^>]*>\s*(?:<!\[CDATA\[)?([\s\S]*?)(?:\]\]>)?\s*</close>` at the
current position, returning the captured group. -/
def extractTagHere (tag close : List Char) (xs : List Char) : Option (List Char) :=
  match caselessMatch ('<' :: tag) xs with
  | none => none
  | some rest =>
    match splitAtSub ['>'] rest with
    | none => none
    | some (_, afterGt) =>
      let afterWs := afterGt.dropWhile isWsChar
      let body :=
        match caselessMatch "<![CDATA[".data afterWs with
        | some r => r
        | none => afterWs
      findContentEnd close body

/-- Leftmost match of the `extractTag` pattern over the document. -/
def extractTagScan (tag close : List Char) : List Char → Option (List Char)
  | [] => extractTagHere tag close []
  | c :: rest =>
    match extractTagHere tag close (c :: rest) with
    | some v => some v
    | none => extractTagScan tag close rest

/-- `extractTag(xml, tag)` of `api/resolve.js`: the closing-tag name is
`tag.split('>').pop()`, the captured content is trimmed, and a failed
match yields the empty string. -/
def extractTag (xml tag : String) : String :=
  let close := ((splitOnChar '>' tag.data).getLast?).getD []
  match extractTagScan tag.data close xml.data with
  | some content => ⟨trimChars content⟩
  | none => ""

/-- Attempt `attr=["']([^"']*)["']` at the head of `xs`, returning the
quoted value; fails when no closing quote of either kind follows. -/
def matchAttrValue (attr : List Char) (xs : List Char) : Option (List Char) :=
  match caselessMatch (attr ++ ['=']) xs with
  | none => none
  | some r =>
    match r with
    | [] => none
    | q :: r2 =>
      if q = '"' ∨ q = '\'' then
        let val := r2.takeWhile (fun c => c ≠ '"' ∧ c ≠ '\'')
        match r2.drop val.length with
        | [] => none
        | _ :: _ => some val
      else none

/-- Scan the run of non-`>` characters after the opening tag for the last
offset at which the attribute pattern fully matches (the greedy `[^>]*`
prefers the rightmost successful split). -/
def scanAttrRun (attr : List Char) : List Char → Option (List Char) → Option (List Char)
  | [], acc =>
    (match matchAttrValue attr [] with
     | some v => some v
     | none => acc)
  | c :: rest, acc =>
    let acc2 :=
      match matchAttrValue attr (c :: rest) with
      | some v => some v
      | none => acc
    if c = '>' then acc2 else scanAttrRun attr rest acc2

/-- Attempt the whole `extractAttr` pattern
`<tag[^>]*attr=["']([^"']*)["']` at the current position. -/
def extractAttrHere (tag attr : List Char) (xs : List Char) : Option (List Char) :=
  match caselessMatch ('<' :: tag) xs with
  | none => none
  | some rest => scanAttrRun attr rest none

/-- Leftmost match of the `extractAttr` pattern over the document. -/
def extractAttrScan (tag attr : List Char) : List Char → Option (List Char)
  | [] => extractAttrHere tag attr []
  | c :: rest =>
    match extractAttrHere tag attr (c :: rest) with
    | some v => some v
    | none => extractAttrScan tag attr rest

/-- `extractAttr(xml, tag, attr)` of `api/resolve.js`. -/
def extractAttr (xml tag attr : String) : String :=
  match extractAttrScan tag.data attr.data xml.data with
  | some v => ⟨trimChars v⟩
  | none => ""

/-! ### Feed parsing (`fetchRSSEpisodes`) -/

/-- One feed entry as produced by `fetchRSSEpisodes`; `duration` is
`none` when the `itunes:duration` parse produced `NaN`. -/
structure FeedEntry where
  title : String
  mp3Url : String
  artwork : String
  duration : Option Int
  showName : String
deriving DecidableEq, Repr

/-- `xs.split(sep)` for a nonempty string separator, fuelled by the input
length (each step strictly shortens the remainder). -/
def splitOnSubAux (sep : List Char) : Nat → List Char → List (List Char)
  | 0, xs => [xs]
  | fuel + 1, xs =>
    match splitAtSub sep xs with
    | none => [xs]
    | some (pre, post) => pre :: splitOnSubAux sep fuel post

/-- `xs.split(sep)` (JS string split, nonempty separator). -/
def splitOnSub (sep xs : List Char) : List (List Char) :=
  splitOnSubAux sep (xs.length + 1) xs

/-- The per-item extraction inside the `map` of `fetchRSSEpisodes`. -/
def parseFeedItem (showTitle showArtwork : String) (itemCs : List Char) : FeedEntry :=
  let item : String := ⟨itemCs⟩
  { title := jsOrStr (extractTag item "title") "Untitled",
    mp3Url := jsOrStr (extractAttr item "enclosure" "url") "",
    artwork := jsOrStr (extractAttr item "itunes:image" "href") showArtwork,
    duration := parseItunesDuration (jsOrStr (extractTag item "itunes:duration") "0"),
    showName := showTitle }

/-- The parsing body of `fetchRSSEpisodes` (`api/resolve.js`); the HTTP
fetch is modelled by handing the response text `xml` to the function.
Show-level title and artwork come from the whole document and the part
before the first `<item`; the document splits on `<item`, the first 50
fragments map to entries, and entries whose enclosure URL is empty are
filtered out. -/
def fetchRSSEpisodes (xml : String) : List FeedEntry :=
  let showTitle := jsOrStr (extractTag xml "title") "Unknown Podcast"
  let beforeFirstItem : String := ⟨((splitOnSub "<item".data xml.data).headD xml.data)⟩
  let showArtwork :=
    jsOrStr (extractAttr beforeFirstItem "itunes:image" "href")
      (jsOrStr (extractTag xml "image>url") "")
  let items := (splitOnSub "<item".data xml.data).drop 1
  ((items.take 50).map (parseFeedItem showTitle showArtwork)).filter
    (fun e => e.mp3Url ≠ "")

/-! ### Source resolvers (`api/resolve.js`) -/

/-- The success payload a resolver returns to the handler. -/
structure ResolveResult where
  mp3Url : String
  title : String
  showName : String
  artwork : String
  duration : Int
  source : String
deriving DecidableEq, Repr

/-- `resolveRSSFeed(url, episodeIndex = 0)` with the fetched feed text as
`xml`: parse the feed, fail when no episodes survive, otherwise take
`episodes[episodeIndex] || episodes[0]` and fill the result record
(`duration: episode.duration || 0`). -/
def resolveRSSFeed (xml : String) (episodeIndex : Nat := 0) :
    Except String ResolveResult :=
  match fetchRSSEpisodes xml with
  | [] => .error "No episodes found in RSS feed."
  | e0 :: rest =>
    let episodes := e0 :: rest
    let episode := (episodes.get? episodeIndex).getD e0
    .ok { mp3Url := episode.mp3Url,
          title := episode.title,
          showName := jsOrStr episode.showName "Unknown Podcast",
          artwork := jsOrStr episode.artwork "",
          duration := jsOrZero episode.duration,
          source := "rss" }

/-- The episode record of the secondary iTunes lookup
(`itunes.apple.com/lookup?id=<episodeId>`); absent string fields are the
empty string, which is falsy wherever the code tests them. -/
structure EpInfo where
  trackName : String
  episodeUrl : String
  artworkUrl600 : String
  trackTimeMillis : Option Int
deriving DecidableEq, Repr

/-- The fuzzy feed-entry lookup of `resolveApplePodcasts`:
`episodes.find(e => e.title.toLowerCase().includes(searchTitle)) ||
episodes.find(e => searchTitle.includes(e.title.toLowerCase().substring(0, 30)))`. -/
def appleFindEpisode (searchTitle : String) (episodes : List FeedEntry) :
    Option FeedEntry :=
  jsOrOpt
    (episodes.find? (fun e => jsIncludes (lowerStr e.title) searchTitle))
    (episodes.find? (fun e => jsIncludes searchTitle (strTake (lowerStr e.title) 30)))

/-- `epInfo.trackTimeMillis ? Math.floor(epInfo.trackTimeMillis / 1000) : 0`
(`0` is falsy; `Math.floor` on a negative quotient floors, hence `fdiv`). -/
def appleMillisToSeconds (millis : Option Int) : Int :=
  match millis with
  | none => 0
  | some m => if m = 0 then 0 else Int.fdiv m 1000

/-- Steps 2–3 of `resolveApplePodcasts` (`api/resolve.js`), with the
network calls replaced by their results: `episodes` is the parsed feed,
`hasEpisodeId` tells whether the URL carried `i=<digits>`, and `epInfo`
is the first result of the secondary episode lookup (`none` when that
lookup returned nothing).  An empty feed fails; when an episode ID is
present and the lookup gave a truthy `trackName`, the fuzzy title match
runs first; only if it found nothing and `episodeUrl` is truthy does the
function return the direct-URL record; otherwise the matched entry or,
failing that, `episodes[0]` is used. -/
def resolveApplePodcasts (hasEpisodeId : Bool) (epInfo : Option EpInfo)
    (episodes : List FeedEntry) (showName artwork : String) :
    Except String ResolveResult :=
  match episodes with
  | [] => .error "No episodes found in RSS feed."
  | e0 :: _ =>
    let matched : Option FeedEntry :=
      if hasEpisodeId then
        match epInfo with
        | some info =>
          if info.trackName ≠ "" then
            appleFindEpisode (lowerStr info.trackName) episodes
          else none
        | none => none
      else none
    let directUrl : String :=
      match epInfo with
      | some info => info.episodeUrl
      | none => ""
    if hasEpisodeId ∧ matched = none ∧ directUrl ≠ "" then
      match epInfo with
      | some info =>
        .ok { mp3Url := info.episodeUrl,
              title := jsOrStr info.trackName "Unknown Episode",
              showName := showName,
              artwork := jsOrStr info.artworkUrl600 artwork,
              duration := appleMillisToSeconds info.trackTimeMillis,
              source := "apple" }
      | none => .error "unreachable"
    else
      let episode := matched.getD e0
      .ok { mp3Url := episode.mp3Url,
            title := episode.title,
            showName := showName,
            artwork := jsOrStr episode.artwork artwork,
            duration := jsOrZero episode.duration,
            source := "apple" }

/-- Modelled from the spec: its fuzzy-matching rule for one catalog/feed
title pair — "case-insensitive containment in either direction,
truncating to the first 30 characters as a matching key".  After
lowercasing, the contained key is truncated to its first 30 characters
and containment is tried in both directions.  This is the claim's reading
of the rule, kept separate from `appleFindEpisode`, which embeds what the
code does. -/
def specFuzzyMatch (catalogTitle feedTitle : String) : Bool :=
  jsIncludes (lowerStr feedTitle) (strTake (lowerStr catalogTitle) 30) ||
  jsIncludes (lowerStr catalogTitle) (strTake (lowerStr feedTitle) 30)

/-- A response of the resolve endpoint: a 200 payload or a status/message
error. -/
inductive ResolveResponse where
  | ok (result : ResolveResult)
  | err (status : Nat) (msg : String)
deriving DecidableEq, Repr

/-- The success gate of the resolve handler, applied to whatever resolver
ran: `if (!result.mp3Url) return res.status(404).json(...)`, else the
result is returned with status 200. -/
def resolveHandlerGate (result : ResolveResult) : ResolveResponse :=
  if result.mp3Url = "" then
    .err 404 "Could not find an audio file for this episode."
  else .ok result

/-- The RSS branch of the resolve handler end to end (feed text in,
response out): resolver errors become 500, an empty audio URL 404,
otherwise 200. -/
def rssRequestOutcome (xml : String) : ResolveResponse :=
  match resolveRSSFeed xml with
  | .error msg => .err 500 msg
  | .ok result => resolveHandlerGate result

/-! ### Audio-download transcription fallback (`api/transcript.js`, rev. 3) -/

/-- The audio format `ytdl.chooseFormat` selected (only presence and the
container/mime fields matter to the modelled flow). -/
structure AudioFormat where
  mimeType : String
  container : String
deriving DecidableEq, Repr

/-- One Whisper segment; `start` is the whole-seconds value
`Math.floor(seg.start)` (sub-second fractions are dropped by the code and
not modelled). -/
structure GroqSeg where
  start : Nat
  text : String
deriving DecidableEq, Repr

/-- The observable outcome of the download-and-transcribe handler after
`ytdl.getInfo` succeeded. -/
inductive TranscribeOutcome where
  | noFormatError
  | sizeLimitError
  | whisperError
  | transcriptOk (transcript : String)
deriving DecidableEq, Repr

/-- Transcript re-flow from Whisper `verbose_json` segments:
`segments.map(seg => "[" + ts + "] " + seg.text.trim()).join('\n')` when
segments exist, otherwise the flat `text` field. -/
def buildSttTranscript (segments : List GroqSeg) (text : String) : String :=
  if segments ≠ [] then
    String.intercalate "\n"
      (segments.map (fun seg => "[" ++ sttTimestamp seg.start ++ "] " ++ jsTrim seg.text))
  else text

/-- The decision chain of the third `api/transcript.js` revision after the
video info is known: no audio-only format → 400; a downloaded buffer of
`audioLen` bytes over `25 * 1024 * 1024` → the size-limit 400 *before*
the Groq upload (the outcome does not depend on the Groq parameters);
otherwise the upload happens and a non-ok Groq response → 500, else the
re-flowed transcript. -/
def transcribeAfterInfo (format : Option AudioFormat) (audioLen : Nat)
    (groqOk : Bool) (segments : List GroqSeg) (text : String) :
    TranscribeOutcome :=
  match format with
  | none => .noFormatError
  | some _ =>
    if audioLen > 25 * 1024 * 1024 then .sizeLimitError
    else if groqOk then .transcriptOk (buildSttTranscript segments text)
    else .whisperError

/-- The input-validation step of the caption handlers: a `null` video id is
answered with HTTP 400 before any network call; `none` means the handler
proceeds with the extracted id. -/
def transcriptRequestStatus (input : String) : Option (Nat × String) :=
  if (extractVideoId input).isNone then
    some (400, "Invalid YouTube URL or video ID.")
  else none

/-! ### Helper lemmas -/

/-- `jsOrOpt` is `some` exactly when one of its arguments is. -/
theorem jsOrOpt_isSome {α : Type} (a b : Option α) :
    (jsOrOpt a b).isSome ↔ (a.isSome ∨ b.isSome) := by
  cases a <;> simp [jsOrOpt]

/-- Every entry `fetchRSSEpisodes` returns passed the enclosure filter. -/
theorem fetchRSSEpisodes_mp3Url_ne_empty (xml : String) :
    ∀ e ∈ fetchRSSEpisodes xml, e.mp3Url ≠ "" := by
  intro e he
  simp only [fetchRSSEpisodes] at he
  exact of_decide_eq_true (List.mem_filter.mp he).2

/-- `fetchRSSEpisodes` never returns more than 50 entries. -/
theorem fetchRSSEpisodes_length_le (xml : String) :
    (fetchRSSEpisodes xml).length ≤ 50 := by
  simp only [fetchRSSEpisodes]
  refine le_trans (List.length_filter_le _ _) ?_
  rw [List.length_map, List.length_take]
  exact min_le_left _ _

/-! ### Claim theorems -/

/-- C1, counterexample: the caption-event paths have no hour case, so a
start time of 3661 seconds is rendered `"61:01"`, not `"1:01:01"` as the
claim requires on every transcript-producing path. -/
theorem C1_counterexample :
    captionTimestamp 3661 = "61:01" ∧
    captionTimestamp 3661 ≠ "1:01:01" ∧
    parseCaptionJson3 [⟨some 3661000, some [⟨"hello"⟩]⟩] = "[61:01] hello" := by
  decide

/-- C1, amended: the speech-to-text path follows the stated rule
(65 → "1:05", 3661 → "1:01:01", 5 → "0:05"); the caption-event paths
always render `M:SS` with the total minute count, agreeing with it below
one hour but rendering 3661 seconds as "61:01". -/
theorem C1_amended_format :
    (∀ s : Nat, s < 3600 → captionTimestamp s = sttTimestamp s) ∧
    captionTimestamp 65 = "1:05" ∧ captionTimestamp 5 = "0:05" ∧
    captionTimestamp 3661 = "61:01" ∧
    sttTimestamp 65 = "1:05" ∧ sttTimestamp 5 = "0:05" ∧
    sttTimestamp 3661 = "1:01:01" := by
  refine ⟨?_, by decide, by decide, by decide, by decide, by decide, by decide⟩
  intro s hs
  have h1 : s / 3600 = 0 := Nat.div_eq_of_lt hs
  have h2 : s % 3600 = s := Nat.mod_eq_of_lt hs
  simp [captionTimestamp, sttTimestamp, h1, h2]

/-- C1 witness: the amended agreement below one hour, at 65 seconds. -/
theorem C1_amended_format_witness :
    captionTimestamp 65 = sttTimestamp 65 :=
  C1_amended_format.1 65 (by decide)

/-- C4, counterexample: with tracks `[fr, en-US(asr)]` the two strategies
select different tracks — revision 1 falls back through `startsWith('en')`
and picks `en-US`, revision 2 requires an exact `'en'` and picks the first
track `fr` — so the selection policy is not shared. -/
theorem C4_counterexample :
    selectTrack1 [⟨"fr", none⟩, ⟨"en-US", some "asr"⟩] =
      some ⟨"en-US", some "asr"⟩ ∧
    selectTrack3 [⟨"fr", none⟩, ⟨"en-US", some "asr"⟩] = some ⟨"fr", none⟩ ∧
    (⟨"en-US", some "asr"⟩ : CaptionTrack) ≠ ⟨"fr", none⟩ := by
  decide

/-- C4, amended: both strategies share the first preference (exact `en`,
not `asr`) and the final fallback, and for every non-empty track list each
strategy selects some track; when no track's language code even starts
with "en", both strategies select the first track — but the middle
preference differs (`startsWith('en')` in revision 1, exact `'en'` in
revision 2), as the counterexample shows. -/
theorem C4_amended_selection :
    (∀ tracks : List CaptionTrack, tracks ≠ [] →
        (selectTrack1 tracks).isSome ∧ (selectTrack3 tracks).isSome) ∧
    (∀ tracks : List CaptionTrack,
        (∀ t ∈ tracks, ¬ jsStartsWith t.languageCode "en") →
        selectTrack1 tracks = tracks.head? ∧ selectTrack3 tracks = tracks.head?) := by
  constructor
  · intro tracks h
    match tracks, h with
    | t :: ts, _ =>
      refine ⟨?_, ?_⟩
      · simp only [selectTrack1, jsOrOpt_isSome]
        right; right; simp
      · simp only [selectTrack3, jsOrOpt_isSome]
        right; right; simp
  · intro tracks h
    have hen : ∀ t ∈ tracks, ¬ (t.languageCode = "en") := by
      intro t ht he
      exact h t ht (by rw [he]; decide)
    have h1 : tracks.find? (fun t => t.languageCode = "en" ∧ t.kind ≠ some "asr")
        = none := by
      rw [List.find?_eq_none]
      intro t ht
      simp only [decide_eq_true_eq, not_and]
      intro he
      exact absurd he (hen t ht)
    have h2 : tracks.find? (fun t => jsStartsWith t.languageCode "en") = none := by
      rw [List.find?_eq_none]
      intro t ht
      exact by simpa using h t ht
    have h3 : tracks.find? (fun t => t.languageCode = "en") = none := by
      rw [List.find?_eq_none]
      intro t ht
      simpa using hen t ht
    constructor
    · rw [selectTrack1, h1, h2]; rfl
    · rw [selectTrack3, h1, h3]; rfl

/-- C4 witness: a singleton non-English track list — both strategies
select the sole track rather than failing. -/
theorem C4_amended_selection_witness :
    ((selectTrack1 [⟨"fr", none⟩]).isSome ∧ (selectTrack3 [⟨"fr", none⟩]).isSome) ∧
    (selectTrack1 [⟨"fr", none⟩] = [(⟨"fr", none⟩ : CaptionTrack)].head? ∧
     selectTrack3 [⟨"fr", none⟩] = [(⟨"fr", none⟩ : CaptionTrack)].head?) :=
  ⟨C4_amended_selection.1 [⟨"fr", none⟩] (by decide),
   C4_amended_selection.2 [⟨"fr", none⟩] (by decide)⟩

/-- C5, counterexample: `/embed/<id>` and `/shorts/<id>` URLs parse with a
`youtube.com` hostname, so the code returns the missing `v` parameter —
`null` — instead of the path id; extraction fails where the claim says the
id is extracted. -/
theorem C5_counterexample :
    extractVideoId "https://www.youtube.com/embed/abc12345678" = none ∧
    extractVideoId "https://www.youtube.com/shorts/abc12345678" = none := by
  decide

/-- C5, amended: an 11-character token (after trimming) is the id itself;
youtu.be URLs yield the first path segment, youtube.com URLs the `v`
parameter; `/embed/` and `/shorts/` forms yield `null` (HTTP 400, as does
every unrecognized input) rather than an exception. -/
theorem C5_amended_extraction :
    extractVideoId "abc12345678" = some "abc12345678" ∧
    extractVideoId " abc12345678 " = some "abc12345678" ∧
    extractVideoId "https://youtu.be/abc12345678" = some "abc12345678" ∧
    extractVideoId "https://www.youtube.com/watch?v=abc12345678" =
      some "abc12345678" ∧
    extractVideoId "just some garbage" = none ∧
    extractVideoId "" = none ∧
    transcriptRequestStatus "just some garbage" =
      some (400, "Invalid YouTube URL or video ID.") ∧
    transcriptRequestStatus "https://youtu.be/abc12345678" = none := by
  decide

/-- C6, counterexample: a colon-bearing string with a non-numeric part
maps through `Number` to `NaN` (`none`), not to the claimed 0. -/
theorem C6_counterexample :
    parseItunesDuration "1:xx" = none ∧ (none : Option Int) ≠ some 0 := by
  decide

/-- C6, amended: the three encodings convert as stated and colon-free
inputs (empty or non-numeric included) default to 0 — and never produce
`NaN` — but a colon-bearing input with a non-numeric part yields `NaN`
rather than 0, and colon counts other than 1 or 2 yield 0. -/
theorem C6_amended_duration :
    parseItunesDuration "1:30" = some 90 ∧
    parseItunesDuration "1:02:03" = some 3723 ∧
    parseItunesDuration "45" = some 45 ∧
    parseItunesDuration "" = some 0 ∧
    parseItunesDuration "abc" = some 0 ∧
    parseItunesDuration "1:2:3:4" = some 0 ∧
    (∀ s : String, ¬ s.data.contains ':' → (parseItunesDuration s).isSome) := by
  refine ⟨by decide, by decide, by decide, by decide, by decide, by decide, ?_⟩
  intro s h
  rw [parseItunesDuration, if_neg (by simpa using h)]
  cases jsParseInt s.data <;> simp

/-- C6 witness: the colon-free branch never yields `NaN`, at "45". -/
theorem C6_amended_duration_witness :
    (parseItunesDuration "45").isSome :=
  C6_amended_duration.2.2.2.2.2.2 "45" (by decide)

/-- C9: once the downloaded buffer exceeds 25 MiB the handler's outcome is
the size-limit error, whatever the Whisper service would have answered —
the upload stage is never consulted. -/
theorem C9_size_limit :
    ∀ (fmt : AudioFormat) (audioLen : Nat) (groqOk : Bool)
      (segments : List GroqSeg) (text : String),
      audioLen > 25 * 1024 * 1024 →
      transcribeAfterInfo (some fmt) audioLen groqOk segments text =
        .sizeLimitError := by
  intro fmt audioLen groqOk segments text h
  simp [transcribeAfterInfo, h]

/-- C9 witness: one byte over the limit fails with the size-limit error. -/
theorem C9_size_limit_witness :
    transcribeAfterInfo (some ⟨"audio/webm", "webm"⟩) (25 * 1024 * 1024 + 1)
      true [] "fallback" = .sizeLimitError :=
  C9_size_limit ⟨"audio/webm", "webm"⟩ (25 * 1024 * 1024 + 1) true []
    "fallback" (by decide)

/-- C10: the caption-based handlers succeed only with an assembled
transcript of at least 50 characters, and any event list assembling to
fewer than 50 characters is answered with the too-short error even though
caption events exist. -/
theorem C10_transcript_length_gate :
    (∀ (events : List CaptionEvent) (t : String),
        captionTranscriptCheck events = .ok t → 50 ≤ t.length) ∧
    (∀ events : List CaptionEvent, (parseCaptionJson3 events).length < 50 →
        captionTranscriptCheck events =
          .error "Transcript is empty or too short.") := by
  constructor
  · intro events t h
    rw [captionTranscriptCheck] at h
    split at h
    · exact absurd h (by simp)
    · cases h
      omega
  · intro events h
    rw [captionTranscriptCheck, if_pos h]

/-- C10 witness: a single 60-character caption event passes the gate with
a transcript of at least 50 characters. -/
theorem C10_transcript_length_gate_witness :
    50 ≤ ("[0:00] " ++
      "aaaaaaaaaaaaaaaaaaaaaaaaaaaaaaaaaaaaaaaaaaaaaaaaaaaaaaaaaaaa").length :=
  C10_transcript_length_gate.1
    [⟨some 0, some [⟨"aaaaaaaaaaaaaaaaaaaaaaaaaaaaaaaaaaaaaaaaaaaaaaaaaaaaaaaaaaaa"⟩]⟩]
    _ (by rfl)

/-- C2, counterexample: the episode lookup yields both a `trackName` whose
fuzzy match succeeds against the feed and a direct `episodeUrl`; the code
returns the matched feed entry's enclosure URL, not the direct URL, so
the direct URL does not short-circuit feed matching. -/
theorem C2_counterexample :
    resolveApplePodcasts true
      (some { trackName := "abc", episodeUrl := "https://direct.example/ep.mp3",
              artworkUrl600 := "", trackTimeMillis := some 1000 })
      [{ title := "ABC full title", mp3Url := "https://feed.example/a.mp3",
         artwork := "", duration := some 10, showName := "S" }] "S" "A" =
      .ok { mp3Url := "https://feed.example/a.mp3", title := "ABC full title",
            showName := "S", artwork := "A", duration := 10, source := "apple" } ∧
    "https://feed.example/a.mp3" ≠ "https://direct.example/ep.mp3" := by
  exact ⟨by rfl, by decide⟩

/-- C2, amended: feed-entry title matching runs first; a successful match
is returned even when the lookup also carries a direct `episodeUrl`; the
direct URL is returned only when the title match found nothing; with no
episode ID the first feed entry is used. -/
theorem C2_amended_resolution :
    (∀ (info : EpInfo) (eps : List FeedEntry) (e0 : FeedEntry)
        (rest : List FeedEntry) (sh aw : String) (e : FeedEntry),
        eps = e0 :: rest →
        info.trackName ≠ "" →
        appleFindEpisode (lowerStr info.trackName) eps = some e →
        resolveApplePodcasts true (some info) eps sh aw =
          .ok { mp3Url := e.mp3Url, title := e.title, showName := sh,
                artwork := jsOrStr e.artwork aw,
                duration := jsOrZero e.duration, source := "apple" }) ∧
    (∀ (info : EpInfo) (eps : List FeedEntry) (e0 : FeedEntry)
        (rest : List FeedEntry) (sh aw : String),
        eps = e0 :: rest →
        info.trackName ≠ "" →
        appleFindEpisode (lowerStr info.trackName) eps = none →
        info.episodeUrl ≠ "" →
        resolveApplePodcasts true (some info) eps sh aw =
          .ok { mp3Url := info.episodeUrl,
                title := jsOrStr info.trackName "Unknown Episode",
                showName := sh, artwork := jsOrStr info.artworkUrl600 aw,
                duration := appleMillisToSeconds info.trackTimeMillis,
                source := "apple" }) ∧
    (∀ (epInfo : Option EpInfo) (e0 : FeedEntry) (rest : List FeedEntry)
        (sh aw : String),
        resolveApplePodcasts false epInfo (e0 :: rest) sh aw =
          .ok { mp3Url := e0.mp3Url, title := e0.title, showName := sh,
                artwork := jsOrStr e0.artwork aw,
                duration := jsOrZero e0.duration, source := "apple" }) := by
  refine ⟨?_, ?_, ?_⟩
  · intro info eps e0 rest sh aw e hE htn hfind
    subst hE
    simp [resolveApplePodcasts, htn, hfind]
  · intro info eps e0 rest sh aw hE htn hfind hurl
    subst hE
    simp [resolveApplePodcasts, htn, hfind, hurl]
  · intro epInfo e0 rest sh aw
    simp [resolveApplePodcasts]

/-- C2 witness: the three amended branches exercised on concrete data —
here the match-first branch, at a lookup title contained in the feed
title. -/
theorem C2_amended_resolution_witness :
    resolveApplePodcasts true
      (some { trackName := "episode", episodeUrl := "https://d.example/x.mp3",
              artworkUrl600 := "", trackTimeMillis := none })
      [{ title := "My Episode One", mp3Url := "https://f.example/1.mp3",
         artwork := "aw", duration := none, showName := "S" }] "Sh" "Aw" =
      .ok { mp3Url := "https://f.example/1.mp3", title := "My Episode One",
            showName := "Sh", artwork := "aw", duration := 0,
            source := "apple" } :=
  C2_amended_resolution.1
    { trackName := "episode", episodeUrl := "https://d.example/x.mp3",
      artworkUrl600 := "", trackTimeMillis := none }
    [{ title := "My Episode One", mp3Url := "https://f.example/1.mp3",
       artwork := "aw", duration := none, showName := "S" }]
    { title := "My Episode One", mp3Url := "https://f.example/1.mp3",
      artwork := "aw", duration := none, showName := "S" } [] "Sh" "Aw"
    { title := "My Episode One", mp3Url := "https://f.example/1.mp3",
      artwork := "aw", duration := none, showName := "S" }
    rfl (by decide) (by decide)

/-- C3, counterexample: the spec's both-directions truncated-containment
rule accepts a feed title that embeds the catalog title's first 30
characters mid-string, but the code accepts neither direction there — its
first direction uses the full, untruncated catalog title, and its second
truncates the feed title, not the catalog title. -/
theorem C3_counterexample :
    specFuzzyMatch "abcdefghijklmnopqrstuvwxyz0123EXTRA"
      "zz abcdefghijklmnopqrstuvwxyz0123 zz" = true ∧
    appleFindEpisode (lowerStr "abcdefghijklmnopqrstuvwxyz0123EXTRA")
      [{ title := "zz abcdefghijklmnopqrstuvwxyz0123 zz", mp3Url := "u",
         artwork := "", duration := some 0, showName := "" }] = none := by
  decide

/-- C3, amended: a feed entry matches exactly when its lowercased title
contains the full lowercased catalog title, or the lowercased catalog
title contains the first 30 characters of the lowercased feed title; the
claim's prefix-containment example still succeeds (first direction). -/
theorem C3_amended_match :
    (∀ (searchTitle : String) (eps : List FeedEntry),
        (appleFindEpisode searchTitle eps).isSome ↔
          ∃ e, e ∈ eps ∧
            (jsIncludes (lowerStr e.title) searchTitle = true ∨
             jsIncludes searchTitle (strTake (lowerStr e.title) 30) = true)) ∧
    appleFindEpisode (lowerStr "Episode 12: Foo Bar Baz")
      [{ title := "Episode 12: Foo Bar Baz ... (long title)", mp3Url := "u",
         artwork := "", duration := some 0, showName := "" }] =
      some { title := "Episode 12: Foo Bar Baz ... (long title)", mp3Url := "u",
             artwork := "", duration := some 0, showName := "" } := by
  refine ⟨?_, by decide⟩
  intro s eps
  rw [appleFindEpisode, jsOrOpt_isSome, List.find?_isSome, List.find?_isSome]
  constructor
  · rintro (⟨e, he, hp⟩ | ⟨e, he, hp⟩)
    · exact ⟨e, he, Or.inl hp⟩
    · exact ⟨e, he, Or.inr hp⟩
  · rintro ⟨e, he, hp | hp⟩
    · exact Or.inl ⟨e, he, hp⟩
    · exact Or.inr ⟨e, he, hp⟩

/-- C3 witness: the amended matcher applied to the claim's
prefix-containment example. -/
theorem C3_amended_match_witness :
    appleFindEpisode (lowerStr "Episode 12: Foo Bar Baz")
      [{ title := "Episode 12: Foo Bar Baz ... (long title)", mp3Url := "u",
         artwork := "", duration := some 0, showName := "" }] =
      some { title := "Episode 12: Foo Bar Baz ... (long title)", mp3Url := "u",
             artwork := "", duration := some 0, showName := "" } :=
  C3_amended_match.2

/-- C7: for every input document the feed parser returns at most 50
entries, and every returned entry has a non-empty enclosure URL. -/
theorem C7_feed_cap_and_enclosure :
    ∀ xml : String, (fetchRSSEpisodes xml).length ≤ 50 ∧
      ∀ e ∈ fetchRSSEpisodes xml, e.mp3Url ≠ "" :=
  fun xml => ⟨fetchRSSEpisodes_length_le xml, fetchRSSEpisodes_mp3Url_ne_empty xml⟩

set_option maxRecDepth 1000000 in
/-- C7 witness: the guarantee instantiated on a one-item feed and its
returned entry. -/
theorem C7_feed_cap_and_enclosure_witness :
    ("http://x/a.mp3" : String) ≠ "" :=
  (C7_feed_cap_and_enclosure
      ("<rss><title>Show</title><item><title>Ep</title>" ++
       "<enclosure url=\"http://x/a.mp3\"/>" ++
       "<itunes:duration>1:30</itunes:duration></item></rss>")).2
    { title := "Ep", mp3Url := "http://x/a.mp3", artwork := "",
      duration := some 90, showName := "Show" } (by decide)

set_option maxRecDepth 1000000 in
/-- C8, counterexample: a feed advertising `itunes:duration` "-1:30"
resolves to a success response whose `duration` is -30, violating the
claimed `durationSeconds >= 0` invariant. -/
theorem C8_counterexample :
    rssRequestOutcome
      ("<rss><title>Show</title><item><title>Ep</title>" ++
       "<enclosure url=\"http://x/a.mp3\"/>" ++
       "<itunes:duration>-1:30</itunes:duration></item></rss>") =
      .ok { mp3Url := "http://x/a.mp3", title := "Ep", showName := "Show",
            artwork := "", duration := -30, source := "rss" } ∧
    ¬ (0 ≤ (-30 : Int)) := by
  exact ⟨by rfl, by decide⟩

/-- C8, amended: every success the handler returns carries a non-empty
audio URL (an empty one is answered 404); the RSS resolver's duration is
non-negative whenever the feed's parsed durations are, but a feed may
produce a negative duration (see the counterexample). -/
theorem C8_amended_invariant :
    (∀ result r : ResolveResult,
        resolveHandlerGate result = .ok r → r.mp3Url ≠ "") ∧
    (∀ (xml : String) (i : Nat) (r : ResolveResult),
        resolveRSSFeed xml i = .ok r →
        (∀ e ∈ fetchRSSEpisodes xml, 0 ≤ jsOrZero e.duration) →
        r.mp3Url ≠ "" ∧ 0 ≤ r.duration) := by
  constructor
  · intro result r h
    rw [resolveHandlerGate] at h
    by_cases hc : result.mp3Url = ""
    · rw [if_pos hc] at h; cases h
    · rw [if_neg hc] at h; cases h; exact hc
  · intro xml i r h hd
    rcases hE : fetchRSSEpisodes xml with _ | ⟨e0, rest⟩ <;>
      rw [resolveRSSFeed, hE] at h
    · cases h
    · cases h
      have hmem : (((e0 :: rest).get? i).getD e0) ∈ fetchRSSEpisodes xml := by
        rw [hE]
        rcases hg : (e0 :: rest).get? i with _ | e
        · simp
        · simpa using List.get?_mem hg
      exact ⟨fetchRSSEpisodes_mp3Url_ne_empty xml _ hmem, hd _ hmem⟩

set_option maxRecDepth 1000000 in
/-- C8 witness: on a well-formed one-item feed with duration "1:30" the
success response has a non-empty audio URL and duration 90 ≥ 0. -/
theorem C8_amended_invariant_witness :
    ("http://x/a.mp3" : String) ≠ "" ∧ (0 : Int) ≤ 90 :=
  C8_amended_invariant.2
    ("<rss><title>Show</title><item><title>Ep</title>" ++
     "<enclosure url=\"http://x/a.mp3\"/>" ++
     "<itunes:duration>1:30</itunes:duration></item></rss>") 0
    { mp3Url := "http://x/a.mp3", title := "Ep", showName := "Show",
      artwork := "", duration := 90, source := "rss" }
    (by rfl) (by decide)

end Podclaw
